import Mathlib

set_option maxRecDepth 8192

/-!
Verification of `makesite.py`, a site-provisioning CLI with two operations:
`_make_html_site` (create web root, log dir, nginx config, enabling symlink)
and `_obtain_cert` (run certbot, rewrite the enabled config with an SSL
template plus a commented backup of the prior content), dispatched by `main`.

The filesystem is modelled as an association list from path strings to
entries (directory, regular file with content, or symbolic link).  Path
lookups that the Python code performs through `os.path.exists` and `open`
follow symbolic links, exactly as POSIX does; `os.mkdir` and `os.symlink`
fail when the final path component itself is occupied (lstat-like), as in
POSIX.  Site names are treated as opaque strings appended by
`os.path.join`; the model does not track parent-directory requirements
(on a real filesystem a child path cannot exist below a missing
directory), which is noted where a theorem relies on it.

The certbot subprocess is an oracle: its exit status and the text the
child writes to its (inherited, never captured) stderr are inputs, as is
the `datetime.now().strftime` timestamp.
-/

/-- A filesystem entry: directory, regular file with content, or symlink. -/
inductive Entry where
  | dir : Entry
  | file : String → Entry
  | symlink : String → Entry
deriving DecidableEq, Repr

/-- A filesystem: an association list from absolute path strings to entries.
Later operations prepend, so the head entry for a path shadows older ones. -/
abbrev FS := List (String × Entry)

/-- Look a path up in the filesystem (no symlink resolution). -/
def fsFind : FS → String → Option Entry
  | [], _ => none
  | (q, e) :: rest, p => if p = q then some e else fsFind rest p

/-- Set the entry at a path (creating or overwriting it). -/
def fsSet (fs : FS) (p : String) (e : Entry) : FS := (p, e) :: fs

/-- Follow symlinks from a path, with fuel; `none` models ELOOP.
The result is the final non-symlink path (which need not have an entry). -/
def resolveTarget (fs : FS) : Nat → String → Option String
  | 0, _ => none
  | n + 1, p =>
    match fsFind fs p with
    | some (Entry.symlink t) => resolveTarget fs n t
    | _ => some p

/-- Linux follows at most 40 nested symlinks before reporting ELOOP. -/
def MAXSYMLINKS : Nat := 40

/-- `os.path.exists`: follows symlinks; `False` on a dangling link or ELOOP. -/
def pathExists (fs : FS) (p : String) : Bool :=
  match resolveTarget fs MAXSYMLINKS p with
  | some q => (fsFind fs q).isSome
  | none => false

/-- `open(p).read()`-style read: follows symlinks, `none` on any failure. -/
def openRead (fs : FS) (p : String) : Option String :=
  match resolveTarget fs MAXSYMLINKS p with
  | some q =>
    match fsFind fs q with
    | some (Entry.file c) => some c
    | _ => none
  | none => none

/-- `open(p, 'w')` followed by `write(c)`: follows symlinks, truncating and
writing the resolved target; fails on a directory or ELOOP. -/
def openWrite (fs : FS) (p : String) (c : String) : Option FS :=
  match resolveTarget fs MAXSYMLINKS p with
  | some q =>
    match fsFind fs q with
    | some Entry.dir => none
    | _ => some (fsSet fs q (Entry.file c))
  | none => none

/-- `os.mkdir`: fails (FileExistsError) when the path itself is occupied. -/
def mkdirOp (fs : FS) (p : String) : Option FS :=
  if (fsFind fs p).isSome then none else some (fsSet fs p Entry.dir)

/-- `os.symlink src lnk`: creates `lnk → src`, failing when `lnk` is occupied. -/
def symlinkOp (fs : FS) (src lnk : String) : Option FS :=
  if (fsFind fs lnk).isSome then none else some (fsSet fs lnk (Entry.symlink src))

/-- `os.path.join a b` (POSIX): `b` if `b` is absolute, else `a`, a
separator when `a` lacks a trailing one, then `b`. -/
def osJoin (a b : String) : String :=
  if b.data.head? = some '/' then b
  else if a.data.getLast? = some '/' then a ++ b
  else a ++ "/" ++ b

def CERTBOT_PATH : String := "/usr/bin/certbot"

def NGINX_CONF_PATH : String := "/etc/nginx"

def NGINX_LOG_PATH : String := "/var/log/nginx"

def NGINX_WWW_PATH : String := "/var/www"

/-- The `DEFAULT_NGINX_HTML_CONF` template string of the source, verbatim:
`\x7b`/`\x7d` are the brace characters and `\x27` the single quote. -/
def DEFAULT_NGINX_HTML_CONF : String := "server \x7b\x7b
    listen 80;
    listen [::]:80;

    server_name {name} www.{name};
    root /var/www/{name};

    access_log /var/log/nginx/{name}/access.log;
    error_log /var/log/nginx/{name}/error.log warn;

    # security
    add_header X-Frame-Options \"SAMEORIGIN\" always;
    add_header X-XSS-Protection \"1; mode=block\" always;
    add_header X-Content-Type-Options \"nosniff\" always;
    add_header Referrer-Policy \"no-referrer-when-downgrade\" always;
    add_header Content-Security-Policy \"default-src \x27self\x27 http: https: data: blob: \x27unsafe-inline\x27\" always;

    # . files
    location ~ /\\.(?!well-known) \x7b\x7b
        deny all;
    \x7d\x7d

    location / \x7b\x7b
        try_files $uri $uri/ /index.html;
    \x7d\x7d
\x7d\x7d
"

/-- The `DEFAULT_NGINX_SSL_HTML_CONF` template string of the source, verbatim. -/
def DEFAULT_NGINX_SSL_HTML_CONF : String := "server \x7b\x7b
    listen 443 ssl http2;
    listen [::]:443 ssl http2;

    server_name {name} www.{name};
    root /var/www/{name};

    access_log /var/log/nginx/{name}/access.log;
    error_log /var/log/nginx/{name}/error.log warn;

    #ssl
    ssl_certificate /etc/letsencrypt/live/{name}/fullchain.pem;
    ssl_certificate_key /etc/letsencrypt/live/{name}/privkey.pem;
    ssl_trusted_certificate /etc/letsencrypt/live/{name}/chain.pem;

    # security
    add_header X-Frame-Options \"SAMEORIGIN\" always;
    add_header X-XSS-Protection \"1; mode=block\" always;
    add_header X-Content-Type-Options \"nosniff\" always;
    add_header Referrer-Policy \"no-referrer-when-downgrade\" always;
    add_header Content-Security-Policy \"default-src \x27self\x27 http: https: data: blob: \x27unsafe-inline\x27\" always;
    add_header Strict-Transport-Security \"max-age=31536000; includeSubDomains; preload\" always;

    # . files
    location ~ /\\.(?!well-known) \x7b\x7b
        deny all;
    \x7d\x7d

    location / \x7b\x7b
        try_files $uri $uri/ /index.html;
    \x7d\x7d
\x7d\x7d

server \x7b\x7b
    listen 80;
    listen [::]:80;

    server_name {name} www.{name};

    # . files
    location ~ /\\.(?!well-known) \x7b\x7b
        deny all;
    \x7d\x7d

    location / \x7b\x7b
        return 301 https://{name}$request_uri;
    \x7d\x7d
\x7d\x7d
"

/-- Python `str.format(name=v)` on the character list of a template whose
only replacement field is `{name}`: `\x7b\x7b` and `\x7d\x7d` are escaped
braces, `{name}` is replaced by `v`. -/
def pyFmt (v : List Char) : List Char → List Char
  | '\x7b' :: '\x7b' :: rest => '\x7b' :: pyFmt v rest
  | '\x7d' :: '\x7d' :: rest => '\x7d' :: pyFmt v rest
  | '\x7b' :: 'n' :: 'a' :: 'm' :: 'e' :: '\x7d' :: rest => v ++ pyFmt v rest
  | c :: rest => c :: pyFmt v rest
  | [] => []

/-- `tpl.format(name=v)`. -/
def formatName (tpl v : String) : String := String.mk (pyFmt v.data tpl.data)

/-- Core of Python `file.readlines()`: split after each newline, keeping
the newline characters; a final fragment without a newline is kept too. -/
def readlinesAux : List Char → List Char → List (List Char)
  | acc, [] => if acc = [] then [] else [acc.reverse]
  | acc, c :: cs =>
    if c = '\n' then (acc.reverse ++ [c]) :: readlinesAux [] cs
    else readlinesAux (c :: acc) cs

/-- Python `file.readlines()` on a string of file content. -/
def pyReadlines (s : String) : List String := (readlinesAux [] s.data).map String.mk

/-- Concatenation of a list of strings. -/
def strConcat : List String → String
  | [] => ""
  | s :: rest => s ++ strConcat rest

/-- Every line of `s` (with its line ending kept), prefixed by `#`,
concatenated back together: the backup block body built by `_obtain_cert`. -/
def commentLines (s : String) : String :=
  strConcat ((pyReadlines s).map (fun l => "#" ++ l))

/-- Observable outcome of one invocation: final filesystem, lines passed to
`print` on stdout, process exit status, and the argv of each subprocess run. -/
structure RunResult where
  fs : FS
  printed : List String
  exitCode : Nat
  subprocCalls : List (List String)
deriving DecidableEq, Repr

/-- `os.path.join(NGINX_CONF_PATH, 'sites-available', name)`. -/
def saPath (name : String) : String := osJoin (osJoin NGINX_CONF_PATH "sites-available") name

/-- `os.path.join(NGINX_CONF_PATH, 'sites-enabled', name)`. -/
def sePath (name : String) : String := osJoin (osJoin NGINX_CONF_PATH "sites-enabled") name

/-- `os.path.join(NGINX_WWW_PATH, name)`. -/
def wwwPath (name : String) : String := osJoin NGINX_WWW_PATH name

/-- `os.path.join(NGINX_LOG_PATH, name)`. -/
def logPath (name : String) : String := osJoin NGINX_LOG_PATH name

/-- `os.path.join(www_path, 'index.html')`. -/
def idxPath (name : String) : String := osJoin (wwwPath name) "index.html"

/-- `_make_html_site(name)`.  The existence check over all four derived
paths runs before any mutation; each later step can fail (an uncaught
OSError terminates the interpreter with exit status 1, having printed only
the earlier status lines). -/
def makeHtmlSite (name : String) (fs : FS) : RunResult :=
  if pathExists fs (saPath name) || pathExists fs (sePath name)
      || pathExists fs (wwwPath name) || pathExists fs (logPath name) then
    { fs := fs, printed := ["ERROR: path " ++ name ++ " - already exists"],
      exitCode := 1, subprocCalls := [] }
  else
    match mkdirOp fs (wwwPath name) with
    | none =>
      { fs := fs, printed := ["Creating content dir"], exitCode := 1, subprocCalls := [] }
    | some fs1 =>
      match openWrite fs1 (idxPath name) name with
      | none =>
        { fs := fs1, printed := ["Creating content dir"], exitCode := 1, subprocCalls := [] }
      | some fs2 =>
        match mkdirOp fs2 (logPath name) with
        | none =>
          { fs := fs2, printed := ["Creating content dir", " - DONE!", "Creating log dir"],
            exitCode := 1, subprocCalls := [] }
        | some fs3 =>
          match openWrite fs3 (saPath name) (formatName DEFAULT_NGINX_HTML_CONF name) with
          | none =>
            { fs := fs3,
              printed := ["Creating content dir", " - DONE!", "Creating log dir", " - DONE!",
                "Creating sites-available config"],
              exitCode := 1, subprocCalls := [] }
          | some fs4 =>
            match symlinkOp fs4 (saPath name) (sePath name) with
            | none =>
              { fs := fs4,
                printed := ["Creating content dir", " - DONE!", "Creating log dir", " - DONE!",
                  "Creating sites-available config", " - DONE!", "Creating symlink on sites-enabled"],
                exitCode := 1, subprocCalls := [] }
            | some fs5 =>
              { fs := fs5,
                printed := ["Creating content dir", " - DONE!", "Creating log dir", " - DONE!",
                  "Creating sites-available config", " - DONE!", "Creating symlink on sites-enabled",
                  " - DONE!"],
                exitCode := 0, subprocCalls := [] }

/-- The argv passed to `subprocess.run` by `_obtain_cert`. -/
def certbotArgs (name email : String) : List String :=
  [CERTBOT_PATH, "certonly", "--nginx", "-m", email, "--agree-tos", "-d", name,
    "-d", "www." ++ name]

/-- `_obtain_cert(name, email)`.  `returncode` is the certbot subprocess's
exit status and `_stderrOfChild` the text the child writes to its stderr;
the stream is inherited, never captured, so Python's `result.stderr` is
`None` and the failure diagnostic interpolates the text `None`.  `now` is
`datetime.now().strftime('%Y-%m-%d %H:%M:%S')`. -/
def obtainCert (name email : String) (returncode : Int) (_stderrOfChild : String)
    (now : String) (fs : FS) : RunResult :=
  if pathExists fs (sePath name) = false then
    { fs := fs, printed := ["ERROR: unknown website " ++ name], exitCode := 1, subprocCalls := [] }
  else
    if returncode ≠ 0 then
      { fs := fs,
        printed := ["Obtaining letsencrypt certificate",
          "ERROR: can\x27t obtain certificate, error: None"],
        exitCode := 1, subprocCalls := [certbotArgs name email] }
    else
      match openRead fs (sePath name) with
      | none =>
        { fs := fs,
          printed := ["Obtaining letsencrypt certificate", " - DONE!",
            "Updating sites-available config"],
          exitCode := 1, subprocCalls := [certbotArgs name email] }
      | some prior =>
        let content := formatName DEFAULT_NGINX_SSL_HTML_CONF name
        let content := content ++ "\n\n#=== Backup - " ++ now ++ " ===\n"
        let content := (pyReadlines prior).foldl (fun acc line => acc ++ "#" ++ line) content
        match openWrite fs (sePath name) content with
        | none =>
          { fs := fs,
            printed := ["Obtaining letsencrypt certificate", " - DONE!",
              "Updating sites-available config"],
            exitCode := 1, subprocCalls := [certbotArgs name email] }
        | some fs2 =>
          { fs := fs2,
            printed := ["Obtaining letsencrypt certificate", " - DONE!",
              "Updating sites-available config", " - DONE!"],
            exitCode := 0, subprocCalls := [certbotArgs name email] }

/-- The parsed value of `--get_cert` (`nargs='?', default=False, const=True`):
absent (`False`), bare flag (`True`), or flag with a string value. -/
inductive GetCertArg where
  | absent : GetCertArg
  | flagOnly : GetCertArg
  | withValue : String → GetCertArg
deriving DecidableEq, Repr

/-- Python truthiness of the `--get_cert` value (`if args.get_cert:`):
`False` is falsy, `True` truthy, a string truthy iff non-empty. -/
def GetCertArg.truthy : GetCertArg → Bool
  | GetCertArg.absent => false
  | GetCertArg.flagOnly => true
  | GetCertArg.withValue s => s != ""

/-- Whether `--get_cert` appeared on the command line at all. -/
def GetCertArg.isSet : GetCertArg → Bool
  | GetCertArg.absent => false
  | _ => true

/-- Python truthiness of an optional string (`if not args.cert_email`):
`None` and the empty string are falsy. -/
def pyTruthyStr : Option String → Bool
  | none => false
  | some s => s != ""

/-- The namespace produced by the argument parser.  The parser constrains
`type` to the single choice `"html"` (default `"html"`); it never produces
any other value, which the dispatch theorems take as a hypothesis. -/
structure Args where
  name : String
  type : String
  get_cert : GetCertArg
  cert_email : Option String
deriving DecidableEq, Repr

/-- Which branch of `main`'s `if`/`elif`/`else` runs. -/
inductive MainBranch where
  | obtainCertBranch : MainBranch
  | createBranch : MainBranch
  | alreadyExistsBranch : MainBranch
deriving DecidableEq, Repr

/-- The branch selection of `main`: `if args.get_cert:` then certificate
issuance, `elif args.type == 'html':` then site creation, else the
already-exists error. -/
def dispatch (args : Args) : MainBranch :=
  if args.get_cert.truthy then MainBranch.obtainCertBranch
  else if args.type == "html" then MainBranch.createBranch
  else MainBranch.alreadyExistsBranch

def ALL_DONE_MSG : String := "All done! Now you can restart your nginx server"

/-- `main()` after argument parsing, as a function of the parsed `args`,
the initial filesystem, and the certbot oracle. -/
def mainRun (args : Args) (fs : FS) (returncode : Int) (stderrOfChild now : String) : RunResult :=
  match dispatch args with
  | MainBranch.obtainCertBranch =>
    if pyTruthyStr args.cert_email = false then
      { fs := fs, printed := ["ERROR: parameter --cert_email is required"],
        exitCode := 1, subprocCalls := [] }
    else
      let r := obtainCert args.name (args.cert_email.getD "") returncode stderrOfChild now fs
      if r.exitCode = 0 then { r with printed := r.printed ++ [ALL_DONE_MSG] } else r
  | MainBranch.createBranch =>
    let r := makeHtmlSite args.name fs
    if r.exitCode = 0 then { r with printed := r.printed ++ [ALL_DONE_MSG] } else r
  | MainBranch.alreadyExistsBranch =>
    { fs := fs, printed := ["ERROR: path " ++ args.name ++ " - already exists"],
      exitCode := 1, subprocCalls := [] }

/-- Strings with equal character data are equal. -/
theorem strDataEq {a b : String} (h : a.data = b.data) : a = b := String.ext h

/-- Character data of an append. -/
theorem dataApp (a b : String) : (a ++ b).data = a.data ++ b.data := by
  cases a; cases b; rfl

/-- A string of length zero is empty. -/
theorem eqEmptyOfLen {t : String} (h : t.length = 0) : t = "" := by
  cases t with
  | mk d =>
    cases d with
    | nil => rfl
    | cons c cs => simp [String.length] at h

/-- Two appends with distinct equal-position characters in their literal
prefixes are distinct strings. -/
theorem appNeOfGetNe (A B : String) (i : Nat) (hA : i < A.data.length)
    (hB : i < B.data.length) (hne : A.data[i]? ≠ B.data[i]?) (x y : String) :
    A ++ x ≠ B ++ y := by
  intro he
  have hd : A.data ++ x.data = B.data ++ y.data := by
    have := congrArg String.data he
    rwa [dataApp, dataApp] at this
  have h1 : (A.data ++ x.data)[i]? = A.data[i]? := List.getElem?_append_left hA
  have h2 : (B.data ++ y.data)[i]? = B.data[i]? := List.getElem?_append_left hB
  exact hne (h1 ▸ h2 ▸ congrArg (fun l => l[i]?) hd)

/-- No string equals itself extended by a non-empty suffix. -/
theorem neSelfApp (s t : String) (ht : t ≠ "") : s ≠ s ++ t := by
  intro he
  have := congrArg String.length he
  rw [String.length_append] at this
  exact ht (eqEmptyOfLen (by omega))

/-- String append is associative. -/
theorem strAppAssoc (a b c : String) : a ++ b ++ c = a ++ (b ++ c) :=
  strDataEq (by simp [dataApp])

theorem fsFind_fsSet (fs : FS) (q p : String) (e : Entry) :
    fsFind (fsSet fs q e) p = if p = q then some e else fsFind fs p := rfl

theorem resolve_of_none {fs : FS} {p : String} (h : fsFind fs p = none) (n : Nat) :
    resolveTarget fs (n + 1) p = some p := by simp [resolveTarget, h]

theorem resolve_of_file {fs : FS} {p c : String} (h : fsFind fs p = some (Entry.file c)) (n : Nat) :
    resolveTarget fs (n + 1) p = some p := by simp [resolveTarget, h]

theorem resolve_of_symlink {fs : FS} {p t : String} (h : fsFind fs p = some (Entry.symlink t))
    (n : Nat) : resolveTarget fs (n + 1) p = resolveTarget fs n t := by
  simp [resolveTarget, h]

theorem resolveM_of_none {fs : FS} {p : String} (h : fsFind fs p = none) :
    resolveTarget fs MAXSYMLINKS p = some p := by
  rw [show MAXSYMLINKS = 39 + 1 from rfl]; exact resolve_of_none h 39

theorem resolveM_of_file {fs : FS} {p c : String} (h : fsFind fs p = some (Entry.file c)) :
    resolveTarget fs MAXSYMLINKS p = some p := by
  rw [show MAXSYMLINKS = 39 + 1 from rfl]; exact resolve_of_file h 39

theorem resolveM_symlink_file {fs : FS} {p t c : String}
    (hp : fsFind fs p = some (Entry.symlink t)) (ht : fsFind fs t = some (Entry.file c)) :
    resolveTarget fs MAXSYMLINKS p = some t := by
  rw [show MAXSYMLINKS = 38 + 1 + 1 from rfl, resolve_of_symlink hp]
  exact resolve_of_file ht 38

/-- The endpoint of a successful symlink resolution is not itself a symlink. -/
theorem resolve_endpoint {fs : FS} {n : Nat} {p q : String}
    (h : resolveTarget fs n p = some q) (t : String) :
    fsFind fs q ≠ some (Entry.symlink t) := by
  induction n generalizing p with
  | zero => simp [resolveTarget] at h
  | succ n ih =>
    cases hf : fsFind fs p with
    | none =>
      rw [resolveTarget, hf] at h
      simp at h
      subst h
      simp [hf]
    | some e =>
      cases e with
      | dir =>
        rw [resolveTarget, hf] at h
        simp at h
        subst h
        simp [hf]
      | file c =>
        rw [resolveTarget, hf] at h
        simp at h
        subst h
        simp [hf]
      | symlink t' =>
        rw [resolveTarget, hf] at h
        simp at h
        exact ih h

/-- Overwriting the resolution endpoint with a file leaves resolution intact. -/
theorem resolve_fsSet_file {fs : FS} {n : Nat} {p q : String} (c : String)
    (h : resolveTarget fs n p = some q) :
    resolveTarget (fsSet fs q (Entry.file c)) n p = some q := by
  induction n generalizing p with
  | zero => simp [resolveTarget] at h
  | succ n ih =>
    cases hf : fsFind fs p with
    | none =>
      rw [resolveTarget, hf] at h
      simp at h
      subst h
      rw [resolveTarget, fsFind_fsSet, if_pos rfl]
    | some e =>
      cases e with
      | dir =>
        rw [resolveTarget, hf] at h
        simp at h
        subst h
        rw [resolveTarget, fsFind_fsSet, if_pos rfl]
      | file c' =>
        rw [resolveTarget, hf] at h
        simp at h
        subst h
        rw [resolveTarget, fsFind_fsSet, if_pos rfl]
      | symlink t' =>
        rw [resolveTarget, hf] at h
        simp at h
        have hpq : p ≠ q := by
          intro he
          subst he
          exact resolve_endpoint h t' hf
        rw [resolveTarget, fsFind_fsSet, if_neg hpq, hf]
        exact ih h

theorem pathExists_none {fs : FS} {p : String} (h : fsFind fs p = none) :
    pathExists fs p = false := by
  simp [pathExists, resolveM_of_none h, h]

theorem pathExists_file {fs : FS} {p c : String} (h : fsFind fs p = some (Entry.file c)) :
    pathExists fs p = true := by
  simp [pathExists, resolveM_of_file h, h]

theorem openWrite_fresh {fs : FS} {p : String} (h : fsFind fs p = none) (c : String) :
    openWrite fs p c = some (fsSet fs p (Entry.file c)) := by
  simp [openWrite, resolveM_of_none h, h]

theorem mkdir_fresh {fs : FS} {p : String} (h : fsFind fs p = none) :
    mkdirOp fs p = some (fsSet fs p Entry.dir) := by
  simp [mkdirOp, h]

theorem symlink_fresh {fs : FS} {p : String} (h : fsFind fs p = none) (src : String) :
    symlinkOp fs src p = some (fsSet fs p (Entry.symlink src)) := by
  simp [symlinkOp, h]

theorem osJoin_concat {a a' b : String} (hb : b.data.head? ≠ some '/')
    (ha : a.data.getLast? ≠ some '/') (haa : a ++ "/" = a') : osJoin a b = a' ++ b := by
  unfold osJoin
  rw [if_neg hb, if_neg ha, haa]

theorem saPath_eq {n : String} (hn : n.data.head? ≠ some '/') :
    saPath n = "/etc/nginx/sites-available/" ++ n := by
  unfold saPath
  rw [show osJoin NGINX_CONF_PATH "sites-available" = "/etc/nginx/sites-available" from rfl]
  exact osJoin_concat hn (by decide) (by decide)

theorem sePath_eq {n : String} (hn : n.data.head? ≠ some '/') :
    sePath n = "/etc/nginx/sites-enabled/" ++ n := by
  unfold sePath
  rw [show osJoin NGINX_CONF_PATH "sites-enabled" = "/etc/nginx/sites-enabled" from rfl]
  exact osJoin_concat hn (by decide) (by decide)

theorem wwwPath_eq {n : String} (hn : n.data.head? ≠ some '/') :
    wwwPath n = "/var/www/" ++ n := by
  unfold wwwPath NGINX_WWW_PATH
  exact osJoin_concat hn (by decide) (by decide)

theorem logPath_eq {n : String} (hn : n.data.head? ≠ some '/') :
    logPath n = "/var/log/nginx/" ++ n := by
  unfold logPath NGINX_LOG_PATH
  exact osJoin_concat hn (by decide) (by decide)

theorem idxPath_cases (n : String) :
    idxPath n = wwwPath n ++ "/index.html" ∨ idxPath n = wwwPath n ++ "index.html" := by
  unfold idxPath osJoin
  have hb : ¬(("index.html" : String).data.head? = some '/') := by decide
  rw [if_neg hb]
  by_cases hl : (wwwPath n).data.getLast? = some '/'
  · rw [if_pos hl]
    right
    rfl
  · rw [if_neg hl, strAppAssoc, show ("/" : String) ++ "index.html" = "/index.html" from rfl]
    left
    rfl

theorem ne_sa_se (x y : String) :
    ("/etc/nginx/sites-available/" : String) ++ x ≠ "/etc/nginx/sites-enabled/" ++ y :=
  appNeOfGetNe _ _ 17 (by decide) (by decide) (by decide) x y

theorem ne_sa_www (x y : String) :
    ("/etc/nginx/sites-available/" : String) ++ x ≠ "/var/www/" ++ y :=
  appNeOfGetNe _ _ 1 (by decide) (by decide) (by decide) x y

theorem ne_sa_log (x y : String) :
    ("/etc/nginx/sites-available/" : String) ++ x ≠ "/var/log/nginx/" ++ y :=
  appNeOfGetNe _ _ 1 (by decide) (by decide) (by decide) x y

theorem ne_se_www (x y : String) :
    ("/etc/nginx/sites-enabled/" : String) ++ x ≠ "/var/www/" ++ y :=
  appNeOfGetNe _ _ 1 (by decide) (by decide) (by decide) x y

theorem ne_se_log (x y : String) :
    ("/etc/nginx/sites-enabled/" : String) ++ x ≠ "/var/log/nginx/" ++ y :=
  appNeOfGetNe _ _ 1 (by decide) (by decide) (by decide) x y

theorem ne_www_log (x y : String) :
    ("/var/www/" : String) ++ x ≠ "/var/log/nginx/" ++ y :=
  appNeOfGetNe _ _ 5 (by decide) (by decide) (by decide) x y

theorem appNeOfLen (A x y : String) (h : x.length ≠ y.length) : A ++ x ≠ A ++ y := by
  intro he
  have := congrArg String.length he
  rw [String.length_append, String.length_append] at this
  omega

/-- The five paths `_make_html_site` touches are pairwise distinct, for any
site name that is not an absolute path. -/
theorem sitePaths_ne (n : String) (hn : n.data.head? ≠ some '/') :
    saPath n ≠ sePath n ∧ saPath n ≠ wwwPath n ∧ saPath n ≠ logPath n ∧ saPath n ≠ idxPath n
    ∧ sePath n ≠ wwwPath n ∧ sePath n ≠ logPath n ∧ sePath n ≠ idxPath n
    ∧ wwwPath n ≠ logPath n ∧ wwwPath n ≠ idxPath n ∧ logPath n ≠ idxPath n := by
  obtain ⟨sfx, hsfx, hi⟩ : ∃ sfx, sfx ≠ "" ∧ idxPath n = "/var/www/" ++ (n ++ sfx) := by
    rcases idxPath_cases n with hi | hi
    · exact ⟨"/index.html", by decide, by rw [hi, wwwPath_eq hn, strAppAssoc]⟩
    · exact ⟨"index.html", by decide, by rw [hi, wwwPath_eq hn, strAppAssoc]⟩
  have hsfxlen : sfx.length ≠ 0 := fun h0 => hsfx (eqEmptyOfLen h0)
  refine ⟨?_, ?_, ?_, ?_, ?_, ?_, ?_, ?_, ?_, ?_⟩
  · rw [saPath_eq hn, sePath_eq hn]
    exact ne_sa_se n n
  · rw [saPath_eq hn, wwwPath_eq hn]
    exact ne_sa_www n n
  · rw [saPath_eq hn, logPath_eq hn]
    exact ne_sa_log n n
  · rw [saPath_eq hn, hi]
    exact ne_sa_www n (n ++ sfx)
  · rw [sePath_eq hn, wwwPath_eq hn]
    exact ne_se_www n n
  · rw [sePath_eq hn, logPath_eq hn]
    exact ne_se_log n n
  · rw [sePath_eq hn, hi]
    exact ne_se_www n (n ++ sfx)
  · rw [wwwPath_eq hn, logPath_eq hn]
    exact (ne_www_log n n).symm.symm
  · rw [wwwPath_eq hn, hi]
    exact appNeOfLen _ _ _ (by rw [String.length_append]; omega)
  · rw [logPath_eq hn, hi]
    exact (ne_www_log (n ++ sfx) n).symm

/-- On a conflict-free filesystem, `_make_html_site` returns exactly the
five new entries, the eight status lines, and exit status 0. -/
theorem makeHtmlSite_fresh_eq (n : String) (fs : FS)
    (hn : n.data.head? ≠ some '/')
    (h1 : fsFind fs (saPath n) = none) (h2 : fsFind fs (sePath n) = none)
    (h3 : fsFind fs (wwwPath n) = none) (h4 : fsFind fs (logPath n) = none)
    (h5 : fsFind fs (idxPath n) = none) :
    makeHtmlSite n fs =
      { fs := fsSet (fsSet (fsSet (fsSet (fsSet fs (wwwPath n) Entry.dir)
            (idxPath n) (Entry.file n)) (logPath n) Entry.dir)
            (saPath n) (Entry.file (formatName DEFAULT_NGINX_HTML_CONF n)))
            (sePath n) (Entry.symlink (saPath n)),
        printed := ["Creating content dir", " - DONE!", "Creating log dir", " - DONE!",
          "Creating sites-available config", " - DONE!", "Creating symlink on sites-enabled",
          " - DONE!"],
        exitCode := 0, subprocCalls := [] } := by
  obtain ⟨nss, nsw, nsl, nsi, new, nel, nei, nwl, nwi, nli⟩ := sitePaths_ne n hn
  have c0 : (pathExists fs (saPath n) || pathExists fs (sePath n)
      || pathExists fs (wwwPath n) || pathExists fs (logPath n)) = false := by
    rw [pathExists_none h1, pathExists_none h2, pathExists_none h3, pathExists_none h4]
    rfl
  have s1 : mkdirOp fs (wwwPath n) = some (fsSet fs (wwwPath n) Entry.dir) := mkdir_fresh h3
  have f5' : fsFind (fsSet fs (wwwPath n) Entry.dir) (idxPath n) = none := by
    rw [fsFind_fsSet, if_neg nwi.symm]
    exact h5
  have s2 : openWrite (fsSet fs (wwwPath n) Entry.dir) (idxPath n) n =
      some (fsSet (fsSet fs (wwwPath n) Entry.dir) (idxPath n) (Entry.file n)) :=
    openWrite_fresh f5' n
  have f4' : fsFind (fsSet (fsSet fs (wwwPath n) Entry.dir) (idxPath n) (Entry.file n))
      (logPath n) = none := by
    rw [fsFind_fsSet, if_neg nli, fsFind_fsSet, if_neg nwl.symm]
    exact h4
  have s3 : mkdirOp (fsSet (fsSet fs (wwwPath n) Entry.dir) (idxPath n) (Entry.file n))
      (logPath n) =
      some (fsSet (fsSet (fsSet fs (wwwPath n) Entry.dir) (idxPath n) (Entry.file n))
        (logPath n) Entry.dir) := mkdir_fresh f4'
  have f1' : fsFind (fsSet (fsSet (fsSet fs (wwwPath n) Entry.dir) (idxPath n) (Entry.file n))
      (logPath n) Entry.dir) (saPath n) = none := by
    rw [fsFind_fsSet, if_neg nsl, fsFind_fsSet, if_neg nsi, fsFind_fsSet, if_neg nsw]
    exact h1
  have s4 : openWrite (fsSet (fsSet (fsSet fs (wwwPath n) Entry.dir) (idxPath n) (Entry.file n))
      (logPath n) Entry.dir) (saPath n) (formatName DEFAULT_NGINX_HTML_CONF n) =
      some (fsSet (fsSet (fsSet (fsSet fs (wwwPath n) Entry.dir) (idxPath n) (Entry.file n))
        (logPath n) Entry.dir) (saPath n) (Entry.file (formatName DEFAULT_NGINX_HTML_CONF n))) :=
    openWrite_fresh f1' _
  have f2' : fsFind (fsSet (fsSet (fsSet (fsSet fs (wwwPath n) Entry.dir) (idxPath n)
      (Entry.file n)) (logPath n) Entry.dir) (saPath n)
      (Entry.file (formatName DEFAULT_NGINX_HTML_CONF n))) (sePath n) = none := by
    rw [fsFind_fsSet, if_neg nss.symm, fsFind_fsSet, if_neg nel, fsFind_fsSet, if_neg nei,
      fsFind_fsSet, if_neg new]
    exact h2
  have s5 : symlinkOp (fsSet (fsSet (fsSet (fsSet fs (wwwPath n) Entry.dir) (idxPath n)
      (Entry.file n)) (logPath n) Entry.dir) (saPath n)
      (Entry.file (formatName DEFAULT_NGINX_HTML_CONF n))) (saPath n) (sePath n) =
      some (fsSet (fsSet (fsSet (fsSet (fsSet fs (wwwPath n) Entry.dir) (idxPath n)
        (Entry.file n)) (logPath n) Entry.dir) (saPath n)
        (Entry.file (formatName DEFAULT_NGINX_HTML_CONF n))) (sePath n)
        (Entry.symlink (saPath n))) := symlink_fresh f2' _
  simp only [makeHtmlSite, c0, s1, s2, s3, s4, s5, Bool.false_eq_true, if_false]

/-- C2: for a site name with no conflicting path, `create` produces exactly
the web root with `index.html` holding the name, an empty log dir, the
rendered HTTP config at the available path, a symlink enabled → available,
and nothing else. -/
theorem create_builds_site (n : String) (fs : FS)
    (hn : n.data.head? ≠ some '/')
    (h1 : fsFind fs (saPath n) = none) (h2 : fsFind fs (sePath n) = none)
    (h3 : fsFind fs (wwwPath n) = none) (h4 : fsFind fs (logPath n) = none)
    (h5 : fsFind fs (idxPath n) = none) :
    (makeHtmlSite n fs).exitCode = 0
    ∧ (makeHtmlSite n fs).subprocCalls = []
    ∧ fsFind (makeHtmlSite n fs).fs (wwwPath n) = some Entry.dir
    ∧ fsFind (makeHtmlSite n fs).fs (idxPath n) = some (Entry.file n)
    ∧ fsFind (makeHtmlSite n fs).fs (logPath n) = some Entry.dir
    ∧ fsFind (makeHtmlSite n fs).fs (saPath n) =
        some (Entry.file (formatName DEFAULT_NGINX_HTML_CONF n))
    ∧ fsFind (makeHtmlSite n fs).fs (sePath n) = some (Entry.symlink (saPath n))
    ∧ ∀ p, p ≠ wwwPath n → p ≠ idxPath n → p ≠ logPath n → p ≠ saPath n → p ≠ sePath n →
        fsFind (makeHtmlSite n fs).fs p = fsFind fs p := by
  obtain ⟨nss, nsw, nsl, nsi, new, nel, nei, nwl, nwi, nli⟩ := sitePaths_ne n hn
  rw [makeHtmlSite_fresh_eq n fs hn h1 h2 h3 h4 h5]
  refine ⟨rfl, rfl, ?_, ?_, ?_, ?_, ?_, ?_⟩
  · rw [fsFind_fsSet, if_neg new.symm, fsFind_fsSet, if_neg nsw.symm, fsFind_fsSet,
      if_neg nwl, fsFind_fsSet, if_neg nwi, fsFind_fsSet, if_pos rfl]
  · rw [fsFind_fsSet, if_neg nei.symm, fsFind_fsSet, if_neg nsi.symm, fsFind_fsSet,
      if_neg nli.symm, fsFind_fsSet, if_pos rfl]
  · rw [fsFind_fsSet, if_neg nel.symm, fsFind_fsSet, if_neg nsl.symm, fsFind_fsSet,
      if_pos rfl]
  · rw [fsFind_fsSet, if_neg nss, fsFind_fsSet, if_pos rfl]
  · rw [fsFind_fsSet, if_pos rfl]
  · intro p pw pi pl ps pe
    rw [fsFind_fsSet, if_neg pe, fsFind_fsSet, if_neg ps, fsFind_fsSet, if_neg pl,
      fsFind_fsSet, if_neg pi, fsFind_fsSet, if_neg pw]

theorem create_builds_site_witness :
    ("example.com" : String).data.head? ≠ some '/'
    ∧ fsFind ([] : FS) (saPath "example.com") = none
    ∧ fsFind ([] : FS) (sePath "example.com") = none
    ∧ fsFind ([] : FS) (wwwPath "example.com") = none
    ∧ fsFind ([] : FS) (logPath "example.com") = none
    ∧ fsFind ([] : FS) (idxPath "example.com") = none
    ∧ ((makeHtmlSite "example.com" []).exitCode = 0
      ∧ (makeHtmlSite "example.com" []).subprocCalls = []
      ∧ fsFind (makeHtmlSite "example.com" []).fs (wwwPath "example.com") = some Entry.dir
      ∧ fsFind (makeHtmlSite "example.com" []).fs (idxPath "example.com") =
          some (Entry.file "example.com")
      ∧ fsFind (makeHtmlSite "example.com" []).fs (logPath "example.com") = some Entry.dir
      ∧ fsFind (makeHtmlSite "example.com" []).fs (saPath "example.com") =
          some (Entry.file (formatName DEFAULT_NGINX_HTML_CONF "example.com"))
      ∧ fsFind (makeHtmlSite "example.com" []).fs (sePath "example.com") =
          some (Entry.symlink (saPath "example.com"))
      ∧ ∀ p, p ≠ wwwPath "example.com" → p ≠ idxPath "example.com" →
          p ≠ logPath "example.com" → p ≠ saPath "example.com" → p ≠ sePath "example.com" →
          fsFind (makeHtmlSite "example.com" []).fs p = fsFind ([] : FS) p) :=
  ⟨by decide, by decide, by decide, by decide, by decide, by decide,
    create_builds_site "example.com" [] (by decide) (by decide) (by decide) (by decide)
      (by decide) (by decide)⟩

/-- Shared computation: the conflict branch of `_make_html_site`. -/
theorem makeHtmlSite_conflict_eq (n : String) (fs : FS)
    (h : pathExists fs (saPath n) = true ∨ pathExists fs (sePath n) = true
      ∨ pathExists fs (wwwPath n) = true ∨ pathExists fs (logPath n) = true) :
    makeHtmlSite n fs =
      { fs := fs, printed := ["ERROR: path " ++ n ++ " - already exists"],
        exitCode := 1, subprocCalls := [] } := by
  have c0 : (pathExists fs (saPath n) || pathExists fs (sePath n)
      || pathExists fs (wwwPath n) || pathExists fs (logPath n)) = true := by
    rcases h with h | h | h | h <;> simp [h]
  simp only [makeHtmlSite, c0, if_true]

/-- C3: if any of the four derived paths already exists, `create` changes
nothing, prints the conflict diagnostic naming the site, and exits 1. -/
theorem create_conflict_no_mutation (n : String) (fs : FS)
    (h : pathExists fs (saPath n) = true ∨ pathExists fs (sePath n) = true
      ∨ pathExists fs (wwwPath n) = true ∨ pathExists fs (logPath n) = true) :
    makeHtmlSite n fs =
      { fs := fs, printed := ["ERROR: path " ++ n ++ " - already exists"],
        exitCode := 1, subprocCalls := [] } :=
  makeHtmlSite_conflict_eq n fs h

theorem create_conflict_no_mutation_witness :
    (pathExists [(wwwPath "example.com", Entry.dir)] (saPath "example.com") = true
      ∨ pathExists [(wwwPath "example.com", Entry.dir)] (sePath "example.com") = true
      ∨ pathExists [(wwwPath "example.com", Entry.dir)] (wwwPath "example.com") = true
      ∨ pathExists [(wwwPath "example.com", Entry.dir)] (logPath "example.com") = true)
    ∧ makeHtmlSite "example.com" [(wwwPath "example.com", Entry.dir)] =
      { fs := [(wwwPath "example.com", Entry.dir)],
        printed := ["ERROR: path " ++ "example.com" ++ " - already exists"],
        exitCode := 1, subprocCalls := [] } :=
  ⟨by decide,
    create_conflict_no_mutation "example.com" [(wwwPath "example.com", Entry.dir)] (by decide)⟩

theorem mkData (s : String) : String.mk s.data = s := rfl

/-- Joining `readlines` output restores the original characters. -/
theorem readlinesAux_join (cs acc : List Char) :
    (readlinesAux acc cs).flatten = acc.reverse ++ cs := by
  induction cs generalizing acc with
  | nil =>
    by_cases h : acc = ([] : List Char)
    · simp [readlinesAux, h]
    · simp [readlinesAux, h]
  | cons c cs ih =>
    by_cases hc : c = '\n'
    · subst hc
      simp [readlinesAux, ih]
    · simp [readlinesAux, hc, ih]

theorem strConcat_map_mk (L : List (List Char)) :
    strConcat (L.map String.mk) = String.mk L.flatten := by
  induction L with
  | nil => rfl
  | cons l L ih =>
    simp only [List.map_cons, strConcat, ih, List.flatten]
    exact strDataEq (by simp [dataApp])

/-- Concatenating the `readlines` of a string restores the string. -/
theorem strConcat_pyReadlines (s : String) : strConcat (pyReadlines s) = s := by
  rw [pyReadlines, strConcat_map_mk, readlinesAux_join]
  simp [mkData]

theorem strAppEmpty (s : String) : s ++ "" = s := by
  apply strDataEq
  rw [dataApp, show ("" : String).data = ([] : List Char) from rfl, List.append_nil]

/-- The `content += "#%s" % line` loop equals appending the concatenation of
the `#`-prefixed lines. -/
theorem foldl_hash (ls : List String) (init : String) :
    ls.foldl (fun acc line => acc ++ "#" ++ line) init
      = init ++ strConcat (ls.map (fun l => "#" ++ l)) := by
  induction ls generalizing init with
  | nil => simp [strConcat, strAppEmpty]
  | cons l ls ih =>
    rw [List.foldl_cons, ih]
    simp [strConcat, strAppAssoc]

theorem strConcat_hash_length (ls : List String) :
    (strConcat (ls.map (fun l => "#" ++ l))).length = ls.length + (strConcat ls).length := by
  induction ls with
  | nil => rfl
  | cons l ls ih =>
    simp only [List.map_cons, strConcat, String.length_append, ih,
      show ("#" : String).length = 1 from rfl, List.length_cons]
    omega

/-- Commenting out every line adds exactly one character per line. -/
theorem commentLines_length (s : String) :
    (commentLines s).length = (pyReadlines s).length + s.length := by
  rw [commentLines, strConcat_hash_length, strConcat_pyReadlines]

/-- `_obtain_cert` after a successful certbot run: the resolution target of
the enabled path is overwritten with the SSL rendering followed by the
timestamped, `#`-commented backup of the prior content. -/
theorem obtainCert_success (n e s t : String) (fs : FS) (q c : String)
    (hq : resolveTarget fs MAXSYMLINKS (sePath n) = some q)
    (hc : fsFind fs q = some (Entry.file c)) :
    obtainCert n e 0 s t fs =
      { fs := fsSet fs q (Entry.file (formatName DEFAULT_NGINX_SSL_HTML_CONF n
          ++ "\n\n#=== Backup - " ++ t ++ " ===\n" ++ commentLines c)),
        printed := ["Obtaining letsencrypt certificate", " - DONE!",
          "Updating sites-available config", " - DONE!"],
        exitCode := 0, subprocCalls := [certbotArgs n e] } := by
  have hex : pathExists fs (sePath n) = true := by simp [pathExists, hq, hc]
  have hrd : openRead fs (sePath n) = some c := by simp [openRead, hq, hc]
  have hwr : ∀ cc : String, openWrite fs (sePath n) cc = some (fsSet fs q (Entry.file cc)) :=
    fun cc => by simp [openWrite, hq, hc]
  simp only [obtainCert, hex, Bool.true_eq_false, if_false, ne_eq, not_true_eq_false,
    reduceIte, hrd, foldl_hash, commentLines, hwr]

theorem openRead_after_write {fs : FS} {p q : String} (cc : String)
    (hq : resolveTarget fs MAXSYMLINKS p = some q) :
    openRead (fsSet fs q (Entry.file cc)) p = some cc := by
  have h2 := resolve_fsSet_file cc hq
  simp [openRead, h2, fsFind_fsSet]

/-- C1: when the enabled-config path resolves to an existing file and
certbot exits 0, `enable_tls` overwrites that file so reading the enabled
path yields exactly the rendered SSL template followed by one backup block:
the timestamp header, then every prior line in order prefixed with `#`. -/
theorem enableTls_rewrites_config (n e s t : String) (fs : FS) (q c : String)
    (hq : resolveTarget fs MAXSYMLINKS (sePath n) = some q)
    (hc : fsFind fs q = some (Entry.file c)) :
    obtainCert n e 0 s t fs =
      { fs := fsSet fs q (Entry.file (formatName DEFAULT_NGINX_SSL_HTML_CONF n
          ++ "\n\n#=== Backup - " ++ t ++ " ===\n"
          ++ strConcat ((pyReadlines c).map (fun l => "#" ++ l)))),
        printed := ["Obtaining letsencrypt certificate", " - DONE!",
          "Updating sites-available config", " - DONE!"],
        exitCode := 0, subprocCalls := [certbotArgs n e] }
    ∧ openRead (obtainCert n e 0 s t fs).fs (sePath n) =
        some (formatName DEFAULT_NGINX_SSL_HTML_CONF n ++ "\n\n#=== Backup - " ++ t ++ " ===\n"
          ++ strConcat ((pyReadlines c).map (fun l => "#" ++ l))) := by
  have heq := obtainCert_success n e s t fs q c hq hc
  rw [commentLines] at heq
  refine ⟨heq, ?_⟩
  rw [heq]
  exact openRead_after_write _ hq

theorem enableTls_rewrites_config_witness :
    resolveTarget [(sePath "x", Entry.symlink (saPath "x")), (saPath "x", Entry.file "a\nb")]
        MAXSYMLINKS (sePath "x") = some (saPath "x")
    ∧ fsFind [(sePath "x", Entry.symlink (saPath "x")), (saPath "x", Entry.file "a\nb")]
        (saPath "x") = some (Entry.file "a\nb")
    ∧ (obtainCert "x" "e@x" 0 "err" "2024-01-02 03:04:05"
        [(sePath "x", Entry.symlink (saPath "x")), (saPath "x", Entry.file "a\nb")] =
      { fs := fsSet [(sePath "x", Entry.symlink (saPath "x")), (saPath "x", Entry.file "a\nb")]
          (saPath "x") (Entry.file (formatName DEFAULT_NGINX_SSL_HTML_CONF "x"
            ++ "\n\n#=== Backup - " ++ "2024-01-02 03:04:05" ++ " ===\n"
            ++ strConcat ((pyReadlines "a\nb").map (fun l => "#" ++ l)))),
        printed := ["Obtaining letsencrypt certificate", " - DONE!",
          "Updating sites-available config", " - DONE!"],
        exitCode := 0, subprocCalls := [certbotArgs "x" "e@x"] }
      ∧ openRead (obtainCert "x" "e@x" 0 "err" "2024-01-02 03:04:05"
            [(sePath "x", Entry.symlink (saPath "x")), (saPath "x", Entry.file "a\nb")]).fs
          (sePath "x") =
        some (formatName DEFAULT_NGINX_SSL_HTML_CONF "x" ++ "\n\n#=== Backup - "
          ++ "2024-01-02 03:04:05" ++ " ===\n"
          ++ strConcat ((pyReadlines "a\nb").map (fun l => "#" ++ l)))) :=
  ⟨by decide, by decide,
    enableTls_rewrites_config "x" "e@x" "err" "2024-01-02 03:04:05"
      [(sePath "x", Entry.symlink (saPath "x")), (saPath "x", Entry.file "a\nb")]
      (saPath "x") "a\nb" (by decide) (by decide)⟩

/-- Shared computation: the unknown-website branch of `_obtain_cert`. -/
theorem obtainCert_unknown_eq (n e s t : String) (rc : Int) (fs : FS)
    (h : pathExists fs (sePath n) = false) :
    obtainCert n e rc s t fs =
      { fs := fs, printed := ["ERROR: unknown website " ++ n], exitCode := 1,
        subprocCalls := [] } := by
  simp [obtainCert, h]

/-- C6: when the enabled-config path does not exist, `enable_tls` writes
nothing, runs no subprocess, prints the unknown-website diagnostic and
exits 1. -/
theorem enableTls_unknown_site (n e s t : String) (rc : Int) (fs : FS)
    (h : pathExists fs (sePath n) = false) :
    obtainCert n e rc s t fs =
      { fs := fs, printed := ["ERROR: unknown website " ++ n], exitCode := 1,
        subprocCalls := [] } :=
  obtainCert_unknown_eq n e s t rc fs h

theorem enableTls_unknown_site_witness :
    pathExists ([] : FS) (sePath "example.com") = false
    ∧ obtainCert "example.com" "e@x" 0 "err" "2024-01-02 03:04:05" [] =
      { fs := ([] : FS), printed := ["ERROR: unknown website " ++ "example.com"],
        exitCode := 1, subprocCalls := [] } :=
  ⟨by decide,
    enableTls_unknown_site "example.com" "e@x" "err" "2024-01-02 03:04:05" 0 [] (by decide)⟩

/-- C10: the unknown-site error is raised exactly when the enabled-config
path fails the existence check; whenever that single check passes — no
matter whether the web root, log dir or available config exist — the
certbot subprocess is invoked. -/
theorem enableTls_checks_only_enabled_path (n e s t : String) (rc : Int) (fs : FS) :
    (pathExists fs (sePath n) = false →
      obtainCert n e rc s t fs =
        { fs := fs, printed := ["ERROR: unknown website " ++ n], exitCode := 1,
          subprocCalls := [] })
    ∧ (pathExists fs (sePath n) = true →
      (obtainCert n e rc s t fs).subprocCalls = [certbotArgs n e]) := by
  constructor
  · intro h
    simp [obtainCert, h]
  · intro h
    unfold obtainCert
    rw [h]
    simp only [Bool.true_eq_false, if_false]
    split
    · rfl
    · split
      · rfl
      · split
        · rfl
        · rfl

theorem enableTls_checks_only_enabled_path_witness :
    (pathExists ([] : FS) (sePath "x") = false
      ∧ obtainCert "x" "e@x" 0 "err" "t" [] =
        { fs := ([] : FS), printed := ["ERROR: unknown website " ++ "x"], exitCode := 1,
          subprocCalls := [] })
    ∧ (pathExists [(sePath "x", Entry.file "c")] (sePath "x") = true
      ∧ (obtainCert "x" "e@x" 0 "err" "t" [(sePath "x", Entry.file "c")]).subprocCalls =
        [certbotArgs "x" "e@x"]) :=
  ⟨⟨by decide, (enableTls_checks_only_enabled_path "x" "e@x" "err" "t" 0 []).1 (by decide)⟩,
    ⟨by decide,
      (enableTls_checks_only_enabled_path "x" "e@x" "err" "t" 0
        [(sePath "x", Entry.file "c")]).2 (by decide)⟩⟩

/-- Shared computation: the certbot-failure branch of `_obtain_cert`. -/
theorem obtainCert_certbot_fail (n e s t : String) (rc : Int) (fs : FS)
    (hex : pathExists fs (sePath n) = true) (hrc : rc ≠ 0) :
    obtainCert n e rc s t fs =
      { fs := fs,
        printed := ["Obtaining letsencrypt certificate",
          "ERROR: can\x27t obtain certificate, error: None"],
        exitCode := 1, subprocCalls := [certbotArgs n e] } := by
  unfold obtainCert
  rw [hex]
  simp [hrc]

/-- C5 (against the code as written): when certbot exits non-zero the tool
aborts before any mutation with exit status 1, but the diagnostic it prints
interpolates Python's `None` — the subprocess error stream is never
captured — and is the same no matter what the child wrote to stderr. -/
theorem certbot_failure_aborts (n e s t : String) (rc : Int) (fs : FS)
    (hex : pathExists fs (sePath n) = true) (hrc : rc ≠ 0) :
    obtainCert n e rc s t fs =
      { fs := fs,
        printed := ["Obtaining letsencrypt certificate",
          "ERROR: can\x27t obtain certificate, error: None"],
        exitCode := 1, subprocCalls := [certbotArgs n e] } :=
  obtainCert_certbot_fail n e s t rc fs hex hrc

theorem certbot_failure_aborts_witness :
    pathExists [(sePath "x", Entry.file "c")] (sePath "x") = true
    ∧ (1 : Int) ≠ 0
    ∧ obtainCert "x" "e@x" 1 "certbot wrote this to its own stderr" "t"
        [(sePath "x", Entry.file "c")] =
      { fs := [(sePath "x", Entry.file "c")],
        printed := ["Obtaining letsencrypt certificate",
          "ERROR: can\x27t obtain certificate, error: None"],
        exitCode := 1, subprocCalls := [certbotArgs "x" "e@x"] } :=
  ⟨by decide, by decide,
    certbot_failure_aborts "x" "e@x" "certbot wrote this to its own stderr" "t" 1
      [(sePath "x", Entry.file "c")] (by decide) (by decide)⟩

/-- C4 counterexample: after `create("example.com")` the enabled config is a
symlink to the available config, so a successful `enable_tls` writes
through it and the available-config file no longer holds its original
HTTP-only rendering. -/
theorem enableTls_mutates_available_config :
    openRead (obtainCert "example.com" "admin@example.com" 0 "" "2024-01-02 03:04:05"
        (makeHtmlSite "example.com" []).fs).fs (saPath "example.com")
      ≠ some (formatName DEFAULT_NGINX_HTML_CONF "example.com") := by
  decide

/-- C4 amended: a successful `enable_tls` mutates exactly one underlying
file — the one the enabled path resolves to, which for a site made by
`create` is the available-config file itself, the enabled path being a
symlink to it.  Both paths now show the new HTTPS content; every other path
is untouched, and the symlink itself survives. -/
theorem enableTls_writes_through_symlink (n e s t c : String) (fs : FS)
    (hse : fsFind fs (sePath n) = some (Entry.symlink (saPath n)))
    (hsa : fsFind fs (saPath n) = some (Entry.file c)) :
    (obtainCert n e 0 s t fs).fs
      = fsSet fs (saPath n) (Entry.file (formatName DEFAULT_NGINX_SSL_HTML_CONF n
          ++ "\n\n#=== Backup - " ++ t ++ " ===\n" ++ commentLines c))
    ∧ fsFind (obtainCert n e 0 s t fs).fs (saPath n)
        = some (Entry.file (formatName DEFAULT_NGINX_SSL_HTML_CONF n
            ++ "\n\n#=== Backup - " ++ t ++ " ===\n" ++ commentLines c))
    ∧ fsFind (obtainCert n e 0 s t fs).fs (sePath n) = some (Entry.symlink (saPath n))
    ∧ ∀ p, p ≠ saPath n → fsFind (obtainCert n e 0 s t fs).fs p = fsFind fs p := by
  have hq : resolveTarget fs MAXSYMLINKS (sePath n) = some (saPath n) :=
    resolveM_symlink_file hse hsa
  have hne : sePath n ≠ saPath n := by
    intro h
    rw [h, hsa] at hse
    cases hse
  have heq := obtainCert_success n e s t fs (saPath n) c hq hsa
  refine ⟨by rw [heq], ?_, ?_, ?_⟩
  · rw [heq, fsFind_fsSet, if_pos rfl]
  · rw [heq, fsFind_fsSet, if_neg hne]
    exact hse
  · intro p hp
    rw [heq, fsFind_fsSet, if_neg hp]

theorem enableTls_writes_through_symlink_witness :
    fsFind [(sePath "x", Entry.symlink (saPath "x")), (saPath "x", Entry.file "a\n")]
        (sePath "x") = some (Entry.symlink (saPath "x"))
    ∧ fsFind [(sePath "x", Entry.symlink (saPath "x")), (saPath "x", Entry.file "a\n")]
        (saPath "x") = some (Entry.file "a\n")
    ∧ ((obtainCert "x" "e@x" 0 "" "t"
          [(sePath "x", Entry.symlink (saPath "x")), (saPath "x", Entry.file "a\n")]).fs
        = fsSet [(sePath "x", Entry.symlink (saPath "x")), (saPath "x", Entry.file "a\n")]
            (saPath "x") (Entry.file (formatName DEFAULT_NGINX_SSL_HTML_CONF "x"
              ++ "\n\n#=== Backup - " ++ "t" ++ " ===\n" ++ commentLines "a\n"))
      ∧ fsFind (obtainCert "x" "e@x" 0 "" "t"
            [(sePath "x", Entry.symlink (saPath "x")), (saPath "x", Entry.file "a\n")]).fs
          (saPath "x")
          = some (Entry.file (formatName DEFAULT_NGINX_SSL_HTML_CONF "x"
              ++ "\n\n#=== Backup - " ++ "t" ++ " ===\n" ++ commentLines "a\n"))
      ∧ fsFind (obtainCert "x" "e@x" 0 "" "t"
            [(sePath "x", Entry.symlink (saPath "x")), (saPath "x", Entry.file "a\n")]).fs
          (sePath "x") = some (Entry.symlink (saPath "x"))
      ∧ ∀ p, p ≠ saPath "x" →
          fsFind (obtainCert "x" "e@x" 0 "" "t"
              [(sePath "x", Entry.symlink (saPath "x")), (saPath "x", Entry.file "a\n")]).fs p
            = fsFind [(sePath "x", Entry.symlink (saPath "x")), (saPath "x", Entry.file "a\n")]
                p) :=
  ⟨by decide, by decide,
    enableTls_writes_through_symlink "x" "e@x" "" "t" "a\n"
      [(sePath "x", Entry.symlink (saPath "x")), (saPath "x", Entry.file "a\n")]
      (by decide) (by decide)⟩

/-- C7: `enable_tls` is not idempotent — a second successful run re-invokes
certbot and rewrites the file to the SSL rendering, the second timestamp
header, and a `#`-commented copy of the entire first result (which itself
contains the first timestamped backup block), so the content strictly
grows. -/
theorem enableTls_not_idempotent (n e s1 s2 t1 t2 : String) (fs : FS) (q c : String)
    (hq : resolveTarget fs MAXSYMLINKS (sePath n) = some q)
    (hc : fsFind fs q = some (Entry.file c)) :
    (obtainCert n e 0 s2 t2 (obtainCert n e 0 s1 t1 fs).fs).exitCode = 0
    ∧ (obtainCert n e 0 s2 t2 (obtainCert n e 0 s1 t1 fs).fs).subprocCalls =
        [certbotArgs n e]
    ∧ openRead (obtainCert n e 0 s2 t2 (obtainCert n e 0 s1 t1 fs).fs).fs (sePath n) =
        some (formatName DEFAULT_NGINX_SSL_HTML_CONF n ++ "\n\n#=== Backup - " ++ t2
          ++ " ===\n" ++ commentLines (formatName DEFAULT_NGINX_SSL_HTML_CONF n
            ++ "\n\n#=== Backup - " ++ t1 ++ " ===\n" ++ commentLines c))
    ∧ (formatName DEFAULT_NGINX_SSL_HTML_CONF n ++ "\n\n#=== Backup - " ++ t1 ++ " ===\n"
        ++ commentLines c).length
      < (formatName DEFAULT_NGINX_SSL_HTML_CONF n ++ "\n\n#=== Backup - " ++ t2 ++ " ===\n"
          ++ commentLines (formatName DEFAULT_NGINX_SSL_HTML_CONF n ++ "\n\n#=== Backup - "
            ++ t1 ++ " ===\n" ++ commentLines c)).length := by
  have heq1 := obtainCert_success n e s1 t1 fs q c hq hc
  have hq2 : resolveTarget (obtainCert n e 0 s1 t1 fs).fs MAXSYMLINKS (sePath n) = some q := by
    rw [heq1]
    exact resolve_fsSet_file _ hq
  have hc2 : fsFind (obtainCert n e 0 s1 t1 fs).fs q =
      some (Entry.file (formatName DEFAULT_NGINX_SSL_HTML_CONF n ++ "\n\n#=== Backup - "
        ++ t1 ++ " ===\n" ++ commentLines c)) := by
    rw [heq1, fsFind_fsSet, if_pos rfl]
  have heq2 := obtainCert_success n e s2 t2 (obtainCert n e 0 s1 t1 fs).fs q
    (formatName DEFAULT_NGINX_SSL_HTML_CONF n ++ "\n\n#=== Backup - " ++ t1 ++ " ===\n"
      ++ commentLines c) hq2 hc2
  refine ⟨by rw [heq2], by rw [heq2], ?_, ?_⟩
  · rw [heq2]
    exact openRead_after_write _ hq2
  · simp only [String.length_append, commentLines_length,
      show ("\n\n#=== Backup - " : String).length = 16 by decide,
      show (" ===\n" : String).length = 5 by decide]
    omega

theorem enableTls_not_idempotent_witness :
    resolveTarget [(sePath "x", Entry.file "a\n")] MAXSYMLINKS (sePath "x") = some (sePath "x")
    ∧ fsFind [(sePath "x", Entry.file "a\n")] (sePath "x") = some (Entry.file "a\n")
    ∧ ((obtainCert "x" "e@x" 0 "" "t2"
          (obtainCert "x" "e@x" 0 "" "t1" [(sePath "x", Entry.file "a\n")]).fs).exitCode = 0
      ∧ (obtainCert "x" "e@x" 0 "" "t2"
          (obtainCert "x" "e@x" 0 "" "t1" [(sePath "x", Entry.file "a\n")]).fs).subprocCalls =
          [certbotArgs "x" "e@x"]
      ∧ openRead (obtainCert "x" "e@x" 0 "" "t2"
            (obtainCert "x" "e@x" 0 "" "t1" [(sePath "x", Entry.file "a\n")]).fs).fs
          (sePath "x") =
          some (formatName DEFAULT_NGINX_SSL_HTML_CONF "x" ++ "\n\n#=== Backup - " ++ "t2"
            ++ " ===\n" ++ commentLines (formatName DEFAULT_NGINX_SSL_HTML_CONF "x"
              ++ "\n\n#=== Backup - " ++ "t1" ++ " ===\n" ++ commentLines "a\n"))
      ∧ (formatName DEFAULT_NGINX_SSL_HTML_CONF "x" ++ "\n\n#=== Backup - " ++ "t1"
          ++ " ===\n" ++ commentLines "a\n").length
        < (formatName DEFAULT_NGINX_SSL_HTML_CONF "x" ++ "\n\n#=== Backup - " ++ "t2"
            ++ " ===\n" ++ commentLines (formatName DEFAULT_NGINX_SSL_HTML_CONF "x"
              ++ "\n\n#=== Backup - " ++ "t1" ++ " ===\n" ++ commentLines "a\n")).length) :=
  ⟨by decide, by decide,
    enableTls_not_idempotent "x" "e@x" "" "" "t1" "t2" [(sePath "x", Entry.file "a\n")]
      (sePath "x") "a\n" (by decide) (by decide)⟩

theorem makeHtmlSite_exit (n : String) (fs : FS) :
    (makeHtmlSite n fs).exitCode = 0 ∨ (makeHtmlSite n fs).exitCode = 1 := by
  unfold makeHtmlSite
  split
  · exact Or.inr rfl
  · split
    · exact Or.inr rfl
    · split
      · exact Or.inr rfl
      · split
        · exact Or.inr rfl
        · split
          · exact Or.inr rfl
          · split
            · exact Or.inr rfl
            · exact Or.inl rfl

theorem obtainCert_exit (n e : String) (rc : Int) (s t : String) (fs : FS) :
    (obtainCert n e rc s t fs).exitCode = 0 ∨ (obtainCert n e rc s t fs).exitCode = 1 := by
  unfold obtainCert
  split
  · exact Or.inr rfl
  · split
    · exact Or.inr rfl
    · split
      · exact Or.inr rfl
      · dsimp only
        split
        · exact Or.inr rfl
        · exact Or.inl rfl

theorem mainRun_exit (args : Args) (fs : FS) (rc : Int) (s t : String) :
    (mainRun args fs rc s t).exitCode = 0 ∨ (mainRun args fs rc s t).exitCode = 1 := by
  unfold mainRun
  split
  · split
    · exact Or.inr rfl
    · dsimp only
      split
      · rename_i h
        exact Or.inl h
      · exact obtainCert_exit args.name (args.cert_email.getD "") rc s t fs
  · dsimp only
    split
    · rename_i h
      exact Or.inl h
    · exact makeHtmlSite_exit args.name fs
  · exact Or.inr rfl

/-- C8: requesting certificate issuance without a usable `--cert_email`
prints the missing-parameter diagnostic, mutates nothing, spawns nothing,
and exits 1; more generally, every detected error — missing flag, unknown
site, certbot failure, path conflict — terminates with its exact diagnostic,
no mutation, and exit status 1, both success paths (site creation and
certificate issuance) exit with status 0, and every invocation exits 0 or 1. -/
theorem mainRun_exit_discipline :
    (∀ (args : Args) (fs : FS) (rc : Int) (s t : String),
      args.get_cert.truthy = true → pyTruthyStr args.cert_email = false →
      mainRun args fs rc s t =
        { fs := fs, printed := ["ERROR: parameter --cert_email is required"],
          exitCode := 1, subprocCalls := [] })
    ∧ (∀ (args : Args) (fs : FS) (rc : Int) (s t : String),
      args.get_cert.truthy = true → pyTruthyStr args.cert_email = true →
      pathExists fs (sePath args.name) = false →
      mainRun args fs rc s t =
        { fs := fs, printed := ["ERROR: unknown website " ++ args.name],
          exitCode := 1, subprocCalls := [] })
    ∧ (∀ (args : Args) (fs : FS) (rc : Int) (s t : String),
      args.get_cert.truthy = true → pyTruthyStr args.cert_email = true →
      pathExists fs (sePath args.name) = true → rc ≠ 0 →
      mainRun args fs rc s t =
        { fs := fs,
          printed := ["Obtaining letsencrypt certificate",
            "ERROR: can\x27t obtain certificate, error: None"],
          exitCode := 1,
          subprocCalls := [certbotArgs args.name (args.cert_email.getD "")] })
    ∧ (∀ (args : Args) (fs : FS) (rc : Int) (s t : String),
      args.get_cert.truthy = false → args.type = "html" →
      (pathExists fs (saPath args.name) = true ∨ pathExists fs (sePath args.name) = true
        ∨ pathExists fs (wwwPath args.name) = true
        ∨ pathExists fs (logPath args.name) = true) →
      mainRun args fs rc s t =
        { fs := fs, printed := ["ERROR: path " ++ args.name ++ " - already exists"],
          exitCode := 1, subprocCalls := [] })
    ∧ (∀ (args : Args) (fs : FS) (rc : Int) (s t : String),
      args.get_cert.truthy = false → args.type = "html" →
      args.name.data.head? ≠ some '/' →
      fsFind fs (saPath args.name) = none → fsFind fs (sePath args.name) = none →
      fsFind fs (wwwPath args.name) = none → fsFind fs (logPath args.name) = none →
      fsFind fs (idxPath args.name) = none →
      (mainRun args fs rc s t).exitCode = 0)
    ∧ (∀ (args : Args) (fs : FS) (rc : Int) (s t q c : String),
      args.get_cert.truthy = true → pyTruthyStr args.cert_email = true →
      resolveTarget fs MAXSYMLINKS (sePath args.name) = some q →
      fsFind fs q = some (Entry.file c) → rc = 0 →
      (mainRun args fs rc s t).exitCode = 0)
    ∧ (∀ (args : Args) (fs : FS) (rc : Int) (s t : String),
      (mainRun args fs rc s t).exitCode = 0 ∨ (mainRun args fs rc s t).exitCode = 1) := by
  refine ⟨?_, ?_, ?_, ?_, ?_, ?_, ?_⟩
  · intro args fs rc s t hg he
    unfold mainRun dispatch
    rw [hg]
    simp [he]
  · intro args fs rc s t hg he hse
    have hr := obtainCert_unknown_eq args.name (args.cert_email.getD "") s t rc fs hse
    simp [mainRun, dispatch, hg, he, hr]
  · intro args fs rc s t hg he hse hrc
    have hr := obtainCert_certbot_fail args.name (args.cert_email.getD "") s t rc fs hse hrc
    simp [mainRun, dispatch, hg, he, hr]
  · intro args fs rc s t hg ht h
    have hr := makeHtmlSite_conflict_eq args.name fs h
    simp [mainRun, dispatch, hg, ht, hr]
  · intro args fs rc s t hg ht hn h1 h2 h3 h4 h5
    have hr := makeHtmlSite_fresh_eq args.name fs hn h1 h2 h3 h4 h5
    simp [mainRun, dispatch, hg, ht, hr]
  · intro args fs rc s t q c hg he hq hc hrc
    subst hrc
    have hr := obtainCert_success args.name (args.cert_email.getD "") s t fs q c hq hc
    simp [mainRun, dispatch, hg, he, hr]
  · intro args fs rc s t
    exact mainRun_exit args fs rc s t

theorem mainRun_exit_discipline_witness :
    ((Args.mk "example.com" "html" GetCertArg.flagOnly none).get_cert.truthy = true
      ∧ pyTruthyStr (Args.mk "example.com" "html" GetCertArg.flagOnly none).cert_email = false
      ∧ mainRun (Args.mk "example.com" "html" GetCertArg.flagOnly none) [] 0 "" "t" =
        { fs := ([] : FS), printed := ["ERROR: parameter --cert_email is required"],
          exitCode := 1, subprocCalls := [] })
    ∧ (pathExists ([] : FS) (sePath "x") = false
      ∧ mainRun (Args.mk "x" "html" GetCertArg.flagOnly (some "e@x")) [] 0 "" "t" =
        { fs := ([] : FS), printed := ["ERROR: unknown website " ++ "x"],
          exitCode := 1, subprocCalls := [] })
    ∧ (pathExists [(sePath "x", Entry.file "c")] (sePath "x") = true
      ∧ mainRun (Args.mk "x" "html" GetCertArg.flagOnly (some "e@x"))
          [(sePath "x", Entry.file "c")] 1 "" "t" =
        { fs := [(sePath "x", Entry.file "c")],
          printed := ["Obtaining letsencrypt certificate",
            "ERROR: can\x27t obtain certificate, error: None"],
          exitCode := 1, subprocCalls := [certbotArgs "x" "e@x"] })
    ∧ (pathExists [(wwwPath "example.com", Entry.dir)] (wwwPath "example.com") = true
      ∧ mainRun (Args.mk "example.com" "html" GetCertArg.absent none)
          [(wwwPath "example.com", Entry.dir)] 0 "" "t" =
        { fs := [(wwwPath "example.com", Entry.dir)],
          printed := ["ERROR: path " ++ "example.com" ++ " - already exists"],
          exitCode := 1, subprocCalls := [] })
    ∧ (mainRun (Args.mk "example.com" "html" GetCertArg.absent none) [] 0 "" "t").exitCode = 0
    ∧ (mainRun (Args.mk "x" "html" GetCertArg.flagOnly (some "e@x"))
        [(sePath "x", Entry.file "a\n")] 0 "" "t").exitCode = 0
    ∧ ((mainRun (Args.mk "example.com" "html" GetCertArg.absent none) [] 0 "" "t").exitCode = 0
      ∨ (mainRun (Args.mk "example.com" "html" GetCertArg.absent none) [] 0 "" "t").exitCode
          = 1) :=
  ⟨⟨by decide, by decide,
    mainRun_exit_discipline.1 (Args.mk "example.com" "html" GetCertArg.flagOnly none) [] 0 "" "t"
      (by decide) (by decide)⟩,
    ⟨by decide,
      mainRun_exit_discipline.2.1 (Args.mk "x" "html" GetCertArg.flagOnly (some "e@x")) [] 0 "" "t"
        (by decide) (by decide) (by decide)⟩,
    ⟨by decide,
      mainRun_exit_discipline.2.2.1 (Args.mk "x" "html" GetCertArg.flagOnly (some "e@x"))
        [(sePath "x", Entry.file "c")] 1 "" "t" (by decide) (by decide) (by decide) (by decide)⟩,
    ⟨by decide,
      mainRun_exit_discipline.2.2.2.1 (Args.mk "example.com" "html" GetCertArg.absent none)
        [(wwwPath "example.com", Entry.dir)] 0 "" "t" (by decide) rfl
        (Or.inr (Or.inr (Or.inl (by decide))))⟩,
    mainRun_exit_discipline.2.2.2.2.1 (Args.mk "example.com" "html" GetCertArg.absent none)
      [] 0 "" "t" (by decide) rfl (by decide) (by decide) (by decide) (by decide) (by decide)
      (by decide),
    mainRun_exit_discipline.2.2.2.2.2.1 (Args.mk "x" "html" GetCertArg.flagOnly (some "e@x"))
      [(sePath "x", Entry.file "a\n")] 0 "" "t" (sePath "x") "a\n" (by decide) (by decide)
      (by decide) (by decide) rfl,
    mainRun_exit_discipline.2.2.2.2.2.2 (Args.mk "example.com" "html" GetCertArg.absent none)
      [] 0 "" "t"⟩

/-- C9 counterexample: `--get_cert ''` is accepted by the parser, so the
flag is set, yet its value is falsy in Python, and `main` dispatches to
site creation rather than certificate issuance. -/
theorem dispatch_set_flag_not_issuance :
    GetCertArg.isSet (Args.mk "example.com" "html" (GetCertArg.withValue "")
        (some "a@b.c")).get_cert = true
    ∧ dispatch (Args.mk "example.com" "html" (GetCertArg.withValue "") (some "a@b.c"))
        ≠ MainBranch.obtainCertBranch
    ∧ dispatch (Args.mk "example.com" "html" (GetCertArg.withValue "") (some "a@b.c"))
        = MainBranch.createBranch := by
  decide

/-- C9 amended: for every parser-accepted argument vector (so `type` is
always the sole choice `"html"`), `main` dispatches to certificate issuance
exactly when the `--get_cert` value is truthy (bare flag, or non-empty
value) and to site creation otherwise; the final `else` branch is
unreachable. -/
theorem dispatch_total (args : Args) (ht : args.type = "html") :
    (args.get_cert.truthy = true → dispatch args = MainBranch.obtainCertBranch)
    ∧ (args.get_cert.truthy = false → dispatch args = MainBranch.createBranch)
    ∧ dispatch args ≠ MainBranch.alreadyExistsBranch := by
  unfold dispatch
  cases hg : args.get_cert.truthy
  · simp [ht]
  · simp

theorem dispatch_total_witness :
    (Args.mk "example.com" "html" GetCertArg.flagOnly none).type = "html"
    ∧ (((Args.mk "example.com" "html" GetCertArg.flagOnly none).get_cert.truthy = true →
        dispatch (Args.mk "example.com" "html" GetCertArg.flagOnly none)
          = MainBranch.obtainCertBranch)
      ∧ ((Args.mk "example.com" "html" GetCertArg.flagOnly none).get_cert.truthy = false →
        dispatch (Args.mk "example.com" "html" GetCertArg.flagOnly none)
          = MainBranch.createBranch)
      ∧ dispatch (Args.mk "example.com" "html" GetCertArg.flagOnly none)
          ≠ MainBranch.alreadyExistsBranch) :=
  ⟨rfl, dispatch_total (Args.mk "example.com" "html" GetCertArg.flagOnly none) rfl⟩
